import Mathlib

/-!
Verification development for the agentic chat backend
(`backend/app`): shallow embedding of the tool registry, the base tool
contract, the intent classifier and the agent orchestrator, together
with theorems about the behaviour of those components.

Conventions of the embedding:
* Python dynamic values (`Any`) are modelled by the inductive `PyVal`;
  Python dicts keyed by strings are association lists
  `List (String × _)` with Python-dict semantics (`dlookup`, `dinsert`,
  `derase`: updating an existing key keeps its position, inserting a
  fresh key appends at the end).
* Python floats that only ever hold literals or clock differences are
  modelled as rationals (`ℚ`).
* Raisable Python calls are modelled in `Except PyExn`, where `PyExn`
  carries the exception message (`str(e)`) and the exception type name
  (`type(e).__name__`).
* `await`-ed collaborator calls (the classification backend, the OpenAI
  client, sibling components) are oracle parameters of the embedded
  functions, each returning `Except PyExn _`.
* Wall-clock reads (`time.time()`) are an oracle `clock : Nat → ℚ`,
  sampled at a distinct index for each textual call site.
-/

namespace AgenticChat

/-- Python dynamic values (`Any`). `PyVal.null` is Python `None`. -/
inductive PyVal where
  | str : String → PyVal
  | int : Int → PyVal
  | rat : ℚ → PyVal
  | bool : Bool → PyVal
  | null : PyVal
  | dict : List (String × PyVal) → PyVal
  | list : List PyVal → PyVal

/-- A Python dict with string keys: `Dict[str, Any]`. -/
def PyDict := List (String × PyVal)

/-- Python truthiness (`if value:`). -/
def PyVal.truthy : PyVal → Bool
  | .str s => s ≠ ""
  | .int n => n ≠ 0
  | .rat q => q ≠ 0
  | .bool b => b
  | .null => false
  | .dict l => !l.isEmpty
  | .list l => !l.isEmpty

/-- `d.get(k)` — `none` when the key is absent (first matching entry;
keys of a Python dict are unique). -/
def dlookup {α : Type} : List (String × α) → String → Option α
  | [], _ => none
  | p :: tl, k => if p.1 = k then some p.2 else dlookup tl k

/-- `d[k] = v` — updates the existing entry in place, else appends. -/
def dinsert {α : Type} : List (String × α) → String → α → List (String × α)
  | [], k, v => [(k, v)]
  | p :: tl, k, v => if p.1 = k then (k, v) :: tl else p :: dinsert tl k v

/-- `del d[k]`. -/
def derase {α : Type} : List (String × α) → String → List (String × α)
  | [], _ => []
  | p :: tl, k => if p.1 = k then derase tl k else p :: derase tl k

/-- `d.get(k, default)` on a dict of dynamic values. -/
def pyGet (d : PyDict) (k : String) (dflt : PyVal) : PyVal :=
  (dlookup d k).getD dflt

/-- A Python exception: `str(e)` and `type(e).__name__`. -/
structure PyExn where
  msg : String
  type_name : String

/-! ## `models/schemas.py` -/

/-- `MessageType` (string enum). -/
inductive MessageType where
  | user | assistant | system | tool_execution | error
deriving DecidableEq

/-- `ToolStatus` (string enum). -/
inductive ToolStatus where
  | pending | running | completed | failed
deriving DecidableEq

/-- `ContentType` (string enum). -/
inductive ContentType where
  | text | code | image | data | error
deriving DecidableEq

/-- `ToolResult` (pydantic model). `execution_time` is a float, modelled
as `ℚ`. -/
structure ToolResult where
  tool_name : String
  status : ToolStatus
  result : Option PyDict := none
  error : Option String := none
  execution_time : Option ℚ := none

/-- `MessageContent`: `content` is `Union[str, Dict[str, Any]]`,
modelled as `PyVal`. -/
structure MessageContent where
  type : ContentType
  content : PyVal
  metadata : Option PyDict := none

/-- `ChatMessage`. Timestamps are clock samples (`ℚ`). -/
structure ChatMessage where
  id : String
  type : MessageType
  content : List MessageContent
  timestamp : ℚ
  user_id : Option String := none
  session_id : Option String := none
  tool_results : Option (List ToolResult) := none

/-- `UserQuery`. -/
structure UserQuery where
  message : String
  session_id : Option String := none
  user_id : Option String := none
  context : Option PyDict := none

/-- `AgentResponse`. -/
structure AgentResponse where
  message_id : String
  response_type : MessageType
  content : List MessageContent
  tools_used : Option (List String) := none
  processing_time : Option ℚ := none
  session_id : Option String := none

/-- `IntentClassification`. `parameters` maps a tool name to its
parameter bundle (a dict). -/
structure IntentClassification where
  intent : String
  confidence : ℚ
  suggested_tools : List String
  parameters : List (String × PyDict)
  reasoning : Option String := none

/-! ## `agents/intent_classifier.py` -/

/-- `sub` occurs as a contiguous run inside `s` (character lists). -/
def charListInfix (sub : List Char) : List Char → Bool
  | [] => sub.isEmpty
  | c :: tail => sub.isPrefixOf (c :: tail) || charListInfix sub tail

/-- Python `sub in s` (substring containment). -/
def strContains (s sub : String) : Bool :=
  charListInfix sub.toList s.toList

/-- Python `s.lower()` (character-wise lowering; the repository's
keyword sets and messages are ASCII). -/
def pyToLower (s : String) : String :=
  String.mk (s.data.map Char.toLower)

/-- `any(word in query_lower for word in words)`. -/
def containsAny (query_lower : String) (words : List String) : Bool :=
  words.any (fun w => strContains query_lower w)

/-- `IntentClassifier._fallback_classification`: ordered keyword matching
over the lower-cased message. -/
def fallback_classification (user_query : String) : IntentClassification :=
  let query_lower := pyToLower user_query
  if containsAny query_lower ["code", "program", "function", "script", "debug"] then
    { intent := "code_generation"
      confidence := 7/10
      suggested_tools := ["text_generation"]
      parameters := [("text_generation", [("prompt", .str ("Help with coding: " ++ user_query))])]
      reasoning := some "Detected code-related keywords" }
  else if containsAny query_lower ["search", "find", "what is", "current", "news", "latest"] then
    { intent := "web_search"
      confidence := 3/5
      suggested_tools := ["text_generation"]
      parameters := [("text_generation", [("prompt", .str ("Provide information about: " ++ user_query))])]
      reasoning := some "Detected search-related keywords" }
  else if containsAny query_lower ["image", "picture", "draw", "create visual", "generate image"] then
    { intent := "image_generation"
      confidence := 4/5
      suggested_tools := ["text_generation"]
      parameters := [("text_generation", [("prompt", .str ("Describe image generation request: " ++ user_query))])]
      reasoning := some "Detected image-related keywords" }
  else if containsAny query_lower ["calculate", "math", "compute", "solve", "equation"] then
    { intent := "calculation"
      confidence := 7/10
      suggested_tools := ["text_generation"]
      parameters := [("text_generation", [("prompt", .str ("Help with calculation: " ++ user_query))])]
      reasoning := some "Detected calculation-related keywords" }
  else
    { intent := "text_generation"
      confidence := 1/2
      suggested_tools := ["text_generation"]
      parameters := [("text_generation", [("prompt", .str user_query)])]
      reasoning := some "Default classification for general text generation" }

/-- The structured data parsed from the classification backend's JSON
answer (`classification_data` after `json.loads`); `none` fields are
absent keys, for which `classify_intent` substitutes defaults. A
response whose fields cannot be coerced to these types raises during
parsing and is covered by the backend oracle's `Except.error` case. -/
structure BackendClassification where
  intent : Option String := none
  confidence : Option ℚ := none
  suggested_tools : Option (List String) := none
  parameters : Option (List (String × PyDict)) := none
  reasoning : Option String := none

/-- The classification backend as seen by `classify_intent`: the whole
of the OpenAI round trip plus JSON parsing, which either produces
parsed data or raises. -/
def ClassifierBackend := String → Except PyExn BackendClassification

/-- `IntentClassifier.classify_intent`. `client = none` models an
unconfigured OpenAI client (`self.client is None`); a backend that
raises sends the classifier to the keyword fallback. -/
def classify_intent (client : Option ClassifierBackend) (user_query : String) :
    IntentClassification :=
  match client with
  | none => fallback_classification user_query
  | some backend =>
    match backend user_query with
    | .error _ => fallback_classification user_query
    | .ok d =>
      { intent := d.intent.getD "text_generation"
        confidence := d.confidence.getD (1/2)
        suggested_tools := d.suggested_tools.getD ["text_generation"]
        parameters := d.parameters.getD
          [("text_generation", [("prompt", .str user_query)])]
        reasoning := some (d.reasoning.getD "Default classification") }

/-! ## `tools/base_tool.py` -/

/-- A progress callback (`Callable[[str, float], None]`), which may
raise when invoked. -/
def ProgressCallback := String → ℚ → Except PyExn Unit

/-- The identity and behaviour of a `BaseTool` instance:
`name`/`description`/`category`/`enabled` attributes, the optionally
attached progress callback, and the two subclass methods used by
`_safe_execute`. `execute` is an oracle that either returns a
`ToolResult` or raises. -/
structure BaseTool where
  name : String
  description : String := ""
  category : String := "general"
  enabled : Bool := true
  progress_callback : Option ProgressCallback := none
  validate_parameters : PyDict → Bool
  execute : PyDict → Except PyExn ToolResult

/-- `BaseTool._report_progress`: calls the callback when attached
(`await`-ing it, so an exception it raises propagates to the caller). -/
def report_progress (t : BaseTool) (message : String) (progress : ℚ) :
    Except PyExn Unit :=
  match t.progress_callback with
  | none => .ok ()
  | some cb => cb message progress

/-- `BaseTool._safe_execute`. `clock i` is the value of the i-th
textual `time.time()` call site: 0 = start, 1 = the validation-failure
result, 2 = the stamp after `execute`, 3 = the `except` branch. A
result is `.error e` when an exception escapes `_safe_execute` itself
(which happens only when the failure-progress report in the `except`
branch raises). -/
def safe_execute (t : BaseTool) (clock : Nat → ℚ) (parameters : PyDict) :
    Except PyExn ToolResult :=
  let start_time := clock 0
  let body : Except PyExn ToolResult :=
    if !t.validate_parameters parameters then
      .ok { tool_name := t.name
            status := .failed
            error := some "Invalid parameters provided"
            execution_time := some (clock 1 - start_time) }
    else do
      let _ ← report_progress t ("Starting " ++ t.name ++ "...") 0
      let result ← t.execute parameters
      let result := { result with execution_time := some (clock 2 - start_time) }
      if result.status = ToolStatus.completed then do
        let _ ← report_progress t (t.name ++ " completed successfully") 1
        pure result
      else
        pure result
  match body with
  | .ok r => .ok r
  | .error e =>
    let execution_time := clock 3 - start_time
    let error_message := "Tool execution failed: " ++ e.msg
    match report_progress t (t.name ++ " failed: " ++ e.msg) 0 with
    | .error e2 => .error e2
    | .ok _ => .ok { tool_name := t.name
                     status := .failed
                     error := some error_message
                     execution_time := some execution_time }

/-! ## `agents/tool_registry.py` -/

/-- The mutable state of a `ToolRegistry`: `_tools` (name → tool) and
`_tool_categories` (category → list of names). -/
structure RegistryState where
  tools : List (String × BaseTool) := []
  tool_categories : List (String × List String) := []

/-- `ToolRegistry.register_tool`. Nothing in the embedded body can
raise, so the `try`/`except` always takes the success path and the
returned flag is `true`. -/
def register_tool (s : RegistryState) (tool : BaseTool) :
    RegistryState × Bool :=
  let tools := dinsert s.tools tool.name tool
  let cats :=
    if (dlookup s.tool_categories tool.category).isNone then
      dinsert s.tool_categories tool.category []
    else s.tool_categories
  let cur := (dlookup cats tool.category).getD []
  let cats :=
    if tool.name ∈ cur then cats
    else dinsert cats tool.category (cur ++ [tool.name])
  ({ tools := tools, tool_categories := cats }, true)

/-- `ToolRegistry.unregister_tool`. -/
def unregister_tool (s : RegistryState) (tool_name : String) :
    RegistryState × Bool :=
  match dlookup s.tools tool_name with
  | none => (s, false)
  | some tool =>
    let category := tool.category
    let tools := derase s.tools tool_name
    let cats :=
      match dlookup s.tool_categories category with
      | none => s.tool_categories
      | some names =>
        let names := names.erase tool_name
        if names.isEmpty then derase s.tool_categories category
        else dinsert s.tool_categories category names
    ({ tools := tools, tool_categories := cats }, true)

/-- `ToolRegistry.get_tool`. -/
def get_tool (s : RegistryState) (tool_name : String) : Option BaseTool :=
  dlookup s.tools tool_name

/-- `ToolRegistry.get_tools_by_category`: the names listed for the
category, resolved through the primary index and filtered by the
enabled flag (names absent from the primary index are skipped). -/
def get_tools_by_category (s : RegistryState) (category : String) :
    List BaseTool :=
  match dlookup s.tool_categories category with
  | none => []
  | some names =>
    names.filterMap (fun n =>
      match dlookup s.tools n with
      | some t => if t.enabled then some t else none
      | none => none)

/-- `ToolRegistry.get_categories`. -/
def get_categories (s : RegistryState) : List String :=
  s.tool_categories.map Prod.fst

/-- One element of the `tool_requests` list handed to
`execute_multiple_tools`: a dict with optional `tool_name` and
`parameters` keys (`request.get("tool_name")` /
`request.get("parameters", {})`). A `tool_name` key present with value
`None` is modelled as `none`, like an absent key. -/
structure ToolRequest where
  tool_name : Option String := none
  parameters : PyDict := []

/-- `request.get("tool_name")` followed by the `if tool_name:` truthy
test: `none` for an absent/empty name. -/
def truthyName : Option String → Option String
  | some s => if s = "" then none else some s
  | none => none

/-- `ToolRegistry.execute_multiple_tools`, with the per-task execution
(`self.execute_tool(tool_name, parameters)`) as the oracle `exec_one`.
Requests without a truthy `tool_name` produce no task; the results of
`asyncio.gather` come back in task order, and the exception-conversion
loop (`for i, result in enumerate(results)`) pairs the i-th *task*
result with the i-th *request* by position, which is exactly
`List.zipWith` over (results, tool_requests). -/
def execute_multiple_tools (exec_one : String → PyDict → Except PyExn ToolResult)
    (tool_requests : List ToolRequest) : List ToolResult :=
  let tasks := tool_requests.filterMap (fun r =>
    (truthyName r.tool_name).map (fun n => exec_one n r.parameters))
  if tasks.isEmpty then []
  else
    List.zipWith (fun result request =>
      match result with
      | .error e =>
        { tool_name := request.tool_name.getD "unknown"
          status := ToolStatus.failed
          error := some ("Tool execution exception: " ++ e.msg) }
      | .ok r => r)
      tasks tool_requests

/-! ## `agents/agent_orchestrator.py` — response formatting -/

/-- An `Optional[float]` attribute placed into a metadata dict. -/
def optRatVal : Option ℚ → PyVal
  | some q => .rat q
  | none => .null

/-- Truthiness of `result.result` (`None` and `{}` are falsy). -/
def resultTruthy : Option PyDict → Bool
  | some d => !d.isEmpty
  | none => false

/-- The body of the `for result in successful_results` loop in
`AgentOrchestrator._format_response`: the content block (if any)
appended for one completed result. -/
def successful_block (result : ToolResult) : Option MessageContent :=
  if result.tool_name == "text_generation" && resultTruthy result.result then
    let r := result.result.getD []
    let generated_text := pyGet r "generated_text" (.str "")
    if generated_text.truthy then
      some { type := .text
             content := generated_text
             metadata := some [("tool_used", .str result.tool_name),
                               ("model", pyGet r "model_used" .null),
                               ("tokens", pyGet r "tokens_used" .null),
                               ("execution_time", optRatVal result.execution_time)] }
    else none
  else if result.tool_name == "code_execution" && resultTruthy result.result then
    let r := result.result.getD []
    some { type := .code
           content := pyGet r "output" (.str "")
           metadata := some [("tool_used", .str result.tool_name),
                             ("language", pyGet r "language" .null),
                             ("execution_time", optRatVal result.execution_time)] }
  else if result.tool_name == "image_generation" && resultTruthy result.result then
    let r := result.result.getD []
    some { type := .image
           content := .dict [("url", pyGet r "image_url" (.str "")),
                             ("description", pyGet r "description" (.str ""))]
           metadata := some [("tool_used", .str result.tool_name),
                             ("execution_time", optRatVal result.execution_time)] }
  else
    some { type := .data
           content := .dict (if resultTruthy result.result then result.result.getD [] else [])
           metadata := some [("tool_used", .str result.tool_name),
                             ("execution_time", optRatVal result.execution_time)] }

/-- The single error content block merging all failed results
(`str(None)` prints as `"None"` when a failed result has no error
string). -/
def merged_error_block (failed_results : List ToolResult) : MessageContent :=
  { type := .error
    content := .str ("Some tools encountered errors:\n" ++
      String.intercalate "\n" (failed_results.map (fun r =>
        "Tool \x27" ++ r.tool_name ++ "\x27 failed: " ++ r.error.getD "None")))
    metadata := some [("failed_tools",
      .list (failed_results.map (fun r => .str r.tool_name)))] }

/-- `AgentOrchestrator._generate_fallback_response`: the fixed table
keyed by the classified intent (`dict.get` with a generic default),
each entry interpolating the original query. -/
def generate_fallback_response (classification : IntentClassification)
    (original_query : String) : MessageContent :=
  let fallback_text :=
    if classification.intent == "text_generation" then
      "I understand you\x27re asking: \x27" ++ original_query ++ "\x27. I\x27d be happy to help, but I\x27m currently unable to generate a detailed response. Please try again or rephrase your question."
    else if classification.intent == "code_generation" then
      "I see you need help with coding. While I can\x27t execute code right now, I can suggest that you\x27re looking for help with: \x27" ++ original_query ++ "\x27. Please try again later."
    else if classification.intent == "web_search" then
      "You\x27re looking for information about: \x27" ++ original_query ++ "\x27. I\x27m currently unable to search the web, but I recommend checking reliable sources for this information."
    else if classification.intent == "image_generation" then
      "I understand you want to create an image related to: \x27" ++ original_query ++ "\x27. Image generation is currently unavailable, but I can help describe what such an image might look like."
    else if classification.intent == "calculation" then
      "I see you need help with calculations: \x27" ++ original_query ++ "\x27. While my calculation tools are unavailable, you might want to use a calculator or math software."
    else if classification.intent == "data_analysis" then
      "You\x27re looking to analyze data related to: \x27" ++ original_query ++ "\x27. Data analysis tools are currently unavailable, but I can suggest general approaches to your analysis needs."
    else
      "I received your message: \x27" ++ original_query ++ "\x27. I\x27m currently unable to process this request fully, but I\x27m here to help. Please try again or ask something else."
  { type := .text
    content := .str fallback_text
    metadata := some [("fallback", .bool true),
                      ("original_intent", .str classification.intent)] }

/-- `AgentOrchestrator._format_response`: completed-result blocks in
result order, then the merged error block (when there are failures),
then the fallback block (when there are no completed results). -/
def format_response (classification : IntentClassification)
    (tool_results : List ToolResult) (original_query : String) :
    List MessageContent :=
  let successful_results := tool_results.filter (fun r => r.status == ToolStatus.completed)
  let failed_results := tool_results.filter (fun r => r.status == ToolStatus.failed)
  let content_parts :=
    if !successful_results.isEmpty then
      successful_results.filterMap successful_block
    else []
  let content_parts :=
    content_parts ++
      (if !failed_results.isEmpty then [merged_error_block failed_results] else [])
  content_parts ++
    (if successful_results.isEmpty then
      [generate_fallback_response classification original_query]
    else [])

/-! ## `agents/agent_orchestrator.py` — the pipeline -/

/-- One value of `AgentOrchestrator.active_sessions[session_id]`. -/
structure SessionData where
  created_at : ℚ
  message_count : Nat

/-- The mutable state of an `AgentOrchestrator`. -/
structure OrchestratorState where
  active_sessions : List (String × SessionData) := []
  conversation_history : List (String × List ChatMessage) := []

/-- One entry of the context list built by
`_get_conversation_context` (`{"type", "content", "timestamp"}`). -/
structure ContextEntry where
  type : MessageType
  content : PyVal
  timestamp : ℚ

/-- The collaborators `process_query` awaits, as oracles:
`intent_classifier.classify_with_history` and
`tool_registry.execute_multiple_tools` (the registry call itself never
raises, but the oracle is kept general). -/
structure OrchestratorDeps where
  classify_with_history :
    String → List ContextEntry → Except PyExn IntentClassification
  execute_multiple_tools :
    List ToolRequest → Except PyExn (List ToolResult)

/-- `if progress_callback: await progress_callback(message, progress)`. -/
def callCB (cb : Option ProgressCallback) (message : String) (progress : ℚ) :
    Except PyExn Unit :=
  match cb with
  | none => .ok ()
  | some f => f message progress

/-- Python `l[-n:]`. -/
def lastN {α : Type} (n : Nat) (l : List α) : List α :=
  l.drop (l.length - n)

/-- `AgentOrchestrator._get_conversation_context`. -/
def get_conversation_context (st : OrchestratorState) (session_id : String) :
    List ContextEntry :=
  match dlookup st.conversation_history session_id with
  | none => []
  | some history =>
    (lastN 5 history).map (fun msg =>
      { type := msg.type
        content := match msg.content with
          | [] => .str ""
          | c :: _ => c.content
        timestamp := msg.timestamp })

/-- `session_id = query.session_id or str(uuid.uuid4())` — `uuid i` is
the i-th `uuid.uuid4()` call site (0 = session id, 1 = message id,
2 = the user message's id). An empty string, like `None`, is falsy. -/
def resolve_session_id (query : UserQuery) (uuid : Nat → String) : String :=
  match query.session_id with
  | some s => if s = "" then uuid 0 else s
  | none => uuid 0

/-- The user `ChatMessage` appended to history before classification. -/
def user_chat_message (query : UserQuery) (session_id : String)
    (clock : Nat → ℚ) (uuid : Nat → String) : ChatMessage :=
  { id := uuid 2
    type := .user
    content := [{ type := .text, content := .str query.message }]
    timestamp := clock 2
    session_id := some session_id
    user_id := query.user_id }

/-- `self.conversation_history[session_id].append(message)`. (On the
states this method reaches, the key is always present: the
session-initialisation block just created it or an earlier query did;
the `getD []` default is only taken on states unreachable through the
orchestrator's own methods.) -/
def history_append (h : List (String × List ChatMessage)) (sid : String)
    (m : ChatMessage) : List (String × List ChatMessage) :=
  dinsert h sid (((dlookup h sid).getD []) ++ [m])

/-- The orchestrator state after the start of `process_query`: session
initialised on first use (`created_at := clock 1`), message count
incremented, and the user message appended — everything that happens
before the first point at which the pipeline can raise. -/
def state_after_append (st : OrchestratorState) (query : UserQuery)
    (clock : Nat → ℚ) (uuid : Nat → String) : OrchestratorState :=
  let session_id := resolve_session_id query uuid
  let st :=
    if (dlookup st.active_sessions session_id).isNone then
      { active_sessions := dinsert st.active_sessions session_id
          { created_at := clock 1, message_count := 0 }
        conversation_history := dinsert st.conversation_history session_id [] }
    else st
  let st :=
    { st with active_sessions :=
        (match dlookup st.active_sessions session_id with
         | some sd => dinsert st.active_sessions session_id
             { sd with message_count := sd.message_count + 1 }
         | none => st.active_sessions) }
  { st with conversation_history :=
      (history_append st.conversation_history session_id
        (user_chat_message query session_id clock uuid)) }

/-- Tags an exception with the orchestrator state at the moment it was
raised (Python state mutations performed before the raise persist). -/
def raiseWith {α : Type} (st : OrchestratorState) (x : Except PyExn α) :
    Except (PyExn × OrchestratorState) α :=
  x.mapError (fun e => (e, st))

/-- The `try` block of `AgentOrchestrator.process_query` (everything
after the user message is appended). `clock` call sites: 0 = start
time, 3 = the success-path `processing_time`, 4 = the assistant
message's timestamp. -/
def process_query_body (deps : OrchestratorDeps) (st : OrchestratorState)
    (query : UserQuery) (cb : Option ProgressCallback)
    (clock : Nat → ℚ) (uuid : Nat → String) :
    Except (PyExn × OrchestratorState) (OrchestratorState × AgentResponse) := do
  let start_time := clock 0
  let session_id := resolve_session_id query uuid
  let message_id := uuid 1
  let st3 := state_after_append st query clock uuid
  let _ ← raiseWith st3 (callCB cb "Analyzing your request..." (1/10))
  let conversation_history := get_conversation_context st3 session_id
  let classification ← raiseWith st3
    (deps.classify_with_history query.message conversation_history)
  let _ ← raiseWith st3
    (callCB cb ("Intent classified: " ++ classification.intent) (3/10))
  let tool_results ←
    if !classification.suggested_tools.isEmpty then do
      let _ ← raiseWith st3 (callCB cb "Executing tools..." (1/2))
      let tool_requests := classification.suggested_tools.filterMap (fun tn =>
        (dlookup classification.parameters tn).map
          (fun ps => ({ tool_name := some tn, parameters := ps } : ToolRequest)))
      let tool_results ←
        if !tool_requests.isEmpty then
          raiseWith st3 (deps.execute_multiple_tools tool_requests)
        else pure []
      let _ ← raiseWith st3 (callCB cb "Processing results..." (4/5))
      pure tool_results
    else pure ([] : List ToolResult)
  let response_content := format_response classification tool_results query.message
  let agent_response : AgentResponse :=
    { message_id := message_id
      response_type := .assistant
      content := response_content
      tools_used := some classification.suggested_tools
      processing_time := some (clock 3 - start_time)
      session_id := some session_id }
  let assistant_message : ChatMessage :=
    { id := message_id
      type := .assistant
      content := response_content
      timestamp := clock 4
      session_id := some session_id
      tool_results := some tool_results }
  let st4 := { st3 with conversation_history :=
      (history_append st3.conversation_history session_id assistant_message) }
  let _ ← raiseWith st4 (callCB cb "Response ready!" 1)
  pure (st4, agent_response)

/-- The single error response built in the `except` branch of
`process_query`. -/
def error_response (e : PyExn) (message_id session_id : String)
    (processing_time : ℚ) : AgentResponse :=
  { message_id := message_id
    response_type := .error
    content := [{ type := .error
                  content := .str
                    ("I encountered an error processing your request: " ++ e.msg)
                  metadata := some [("error_type", .str e.type_name)] }]
    processing_time := some processing_time
    session_id := some session_id }

/-- `AgentOrchestrator.process_query`: runs the `try` body and converts
any escaping exception into the single error response, keeping the
state as of the raise (no rollback). The error path's
`processing_time` is `clock 5 - clock 0`. -/
def process_query (deps : OrchestratorDeps) (st : OrchestratorState)
    (query : UserQuery) (cb : Option ProgressCallback)
    (clock : Nat → ℚ) (uuid : Nat → String) :
    OrchestratorState × AgentResponse :=
  match process_query_body deps st query cb clock uuid with
  | .ok r => r
  | .error (e, stE) =>
    (stE, error_response e (uuid 1) (resolve_session_id query uuid)
      (clock 5 - clock 0))

/-! ## Predicates used in theorem statements -/

/-- The classifier rule invariant: at least one suggested tool, and a
parameter bundle for every suggested tool. -/
def ClassificationWF (c : IntentClassification) : Prop :=
  c.suggested_tools ≠ [] ∧
    ∀ t ∈ c.suggested_tools, (dlookup c.parameters t).isSome

/-- A content block is the fallback block: its metadata carries the
`"fallback"` key (only `_generate_fallback_response` sets it). -/
def isFallbackBlock (b : MessageContent) : Bool :=
  match b.metadata with
  | some m => (dlookup m "fallback").isSome
  | none => false

/-- One registry mutation. -/
inductive RegOp where
  | reg (t : BaseTool)
  | unreg (n : String)

/-- The state reached by one registry mutation. -/
def apply_op (s : RegistryState) : RegOp → RegistryState
  | .reg t => (register_tool s t).1
  | .unreg n => (unregister_tool s n).1

/-- The state reached by a sequence of registry mutations. -/
def apply_ops : RegistryState → List RegOp → RegistryState
  | s, [] => s
  | s, op :: l => apply_ops (apply_op s op) l

/-- A registration is category-stable on `s` when it does not change
the category of an already-registered name. -/
def CategoryStable (s : RegistryState) : RegOp → Prop
  | .reg t => ∀ t₀, dlookup s.tools t.name = some t₀ → t₀.category = t.category
  | .unreg _ => True

/-- Every mutation of the sequence is category-stable on the state it
is applied to. -/
def OkSeq : RegistryState → List RegOp → Prop
  | _, [] => True
  | s, op :: l => CategoryStable s op ∧ OkSeq (apply_op s op) l

/-- Registry consistency: each category's name list has no duplicates,
and every listed name resolves in the primary index to a tool whose
current category is that category. -/
def RegInv (s : RegistryState) : Prop :=
  ∀ c names, dlookup s.tool_categories c = some names →
    names.Nodup ∧ ∀ n ∈ names, ∃ t, dlookup s.tools n = some t ∧ t.category = c

/-- The category index references no tool name absent from the primary
index. -/
def NoDangling (s : RegistryState) : Prop :=
  ∀ c names, dlookup s.tool_categories c = some names →
    ∀ n ∈ names, (dlookup s.tools n).isSome

/-- How many entries of the association list carry the key. -/
def keyCount {α : Type} (d : List (String × α)) (k : String) : Nat :=
  (d.filter (fun p => p.1 == k)).length

/-! ## Association-list (Python dict) lemmas -/

theorem dlookup_dinsert_self {α : Type} (d : List (String × α)) (k : String)
    (v : α) : dlookup (dinsert d k v) k = some v := by
  induction d with
  | nil => simp [dinsert, dlookup]
  | cons p tl ih =>
    by_cases h : p.1 = k
    · simp [dinsert, dlookup, h]
    · simp [dinsert, dlookup, h, ih]

theorem dlookup_dinsert_ne {α : Type} (d : List (String × α)) (k k' : String)
    (v : α) (h : k' ≠ k) : dlookup (dinsert d k v) k' = dlookup d k' := by
  have hkk : ¬(k = k') := fun hh => h hh.symm
  induction d with
  | nil => simp [dinsert, dlookup, hkk]
  | cons p tl ih =>
    by_cases hp : p.1 = k
    · have hp' : ¬(p.1 = k') := by rw [hp]; exact hkk
      simp [dinsert, dlookup, hp, hkk, hp']
    · simp [dinsert, dlookup, hp, ih]

theorem dlookup_derase_self {α : Type} (d : List (String × α)) (k : String) :
    dlookup (derase d k) k = none := by
  induction d with
  | nil => simp [derase, dlookup]
  | cons p tl ih =>
    by_cases h : p.1 = k
    · simp [derase, h, ih]
    · simp [derase, dlookup, h, ih]

theorem dlookup_derase_ne {α : Type} (d : List (String × α)) (k k' : String)
    (h : k' ≠ k) : dlookup (derase d k) k' = dlookup d k' := by
  induction d with
  | nil => simp [derase]
  | cons p tl ih =>
    by_cases hp : p.1 = k
    · have hkk : ¬(k = k') := fun hh => h hh.symm
      simp [derase, dlookup, hp, hkk, ih]
    · simp [derase, dlookup, hp, ih]

theorem mem_keys_of_dlookup {α : Type} (d : List (String × α)) (k : String)
    (v : α) (h : dlookup d k = some v) : k ∈ d.map Prod.fst := by
  induction d with
  | nil => simp [dlookup] at h
  | cons p tl ih =>
    by_cases hp : p.1 = k
    · simp [hp]
    · rw [dlookup] at h
      simp only [hp, if_false] at h
      exact List.mem_cons_of_mem _ (ih h)

theorem dlookup_eq_none_of_not_mem_keys {α : Type} (d : List (String × α))
    (k : String) (h : dlookup d k = none) : k ∉ d.map Prod.fst := by
  induction d with
  | nil => simp
  | cons p tl ih =>
    rw [dlookup] at h
    by_cases hp : p.1 = k
    · simp [hp] at h
    · simp only [hp, if_false] at h
      simp only [List.map_cons, List.mem_cons]
      push_neg
      exact ⟨fun hh => hp hh.symm, ih h⟩

/-! ## C5 — `_safe_execute` on rejected parameters -/

/-- Claim C5: for every tool and every parameter dict, if
`validate_parameters` returns false then `_safe_execute` returns a
`ToolResult` with status `failed` and a non-empty error string,
records an overall execution duration on that result, and never
invokes `execute` (the outcome does not depend on the `execute`
implementation, and no exception escapes). -/
theorem safe_execute_rejects_invalid (t : BaseTool) (clock : Nat → ℚ)
    (p : PyDict) (h : t.validate_parameters p = false) :
    (∃ r : ToolResult, safe_execute t clock p = .ok r ∧
      r.status = ToolStatus.failed ∧
      (∃ msg, r.error = some msg ∧ msg ≠ "") ∧
      r.execution_time.isSome) ∧
    (∀ ex, safe_execute { t with execute := ex } clock p =
      safe_execute t clock p) := by
  constructor
  · refine ⟨{ tool_name := t.name
              status := .failed
              error := some "Invalid parameters provided"
              execution_time := some (clock 1 - clock 0) }, ?_, rfl, ?_, rfl⟩
    · simp [safe_execute, h]
    · exact ⟨"Invalid parameters provided", rfl, by decide⟩
  · intro ex
    simp [safe_execute, h]

/-- Witness for C5 at a concrete tool whose validator rejects the
empty parameter dict. -/
theorem safe_execute_rejects_invalid_witness :
    (∃ r : ToolResult,
      safe_execute
        { name := "text_generation"
          validate_parameters := fun _ => false
          execute := fun _ => .ok
            { tool_name := "text_generation", status := .completed } }
        (fun _ => 0) [] = .ok r ∧
      r.status = ToolStatus.failed ∧
      (∃ msg, r.error = some msg ∧ msg ≠ "") ∧
      r.execution_time.isSome) ∧
    (∀ ex, safe_execute
        { name := "text_generation"
          validate_parameters := fun _ => false
          execute := ex }
        (fun _ => 0) [] =
      safe_execute
        { name := "text_generation"
          validate_parameters := fun _ => false
          execute := fun _ => .ok
            { tool_name := "text_generation", status := .completed } }
        (fun _ => 0) []) :=
  safe_execute_rejects_invalid
    { name := "text_generation"
      validate_parameters := fun _ => false
      execute := fun _ => .ok
        { tool_name := "text_generation", status := .completed } }
    (fun _ => 0) [] rfl

/-! ## C8 — keyword fallback priority and scenarios -/

/-- Claim C8: with no classification backend configured,
`classify_intent` applies the keyword sets to the lower-cased message
in the fixed priority order code → web-search → image → calculation →
default, every fallback result suggests exactly the one tool
`text_generation` with the category's fixed confidence; "Hello" yields
intent `text_generation` with confidence 0.5 and tool list
`["text_generation"]`, and "debug this python function" yields intent
`code_generation` with confidence 0.7. -/
theorem fallback_keyword_priority :
    (∀ q, classify_intent none q = fallback_classification q) ∧
    (∀ q, (fallback_classification q).suggested_tools = ["text_generation"]) ∧
    (∀ q, containsAny (pyToLower q)
        ["code", "program", "function", "script", "debug"] = true →
      (fallback_classification q).intent = "code_generation" ∧
      (fallback_classification q).confidence = 7/10) ∧
    (∀ q, containsAny (pyToLower q)
        ["code", "program", "function", "script", "debug"] = false →
      containsAny (pyToLower q)
        ["search", "find", "what is", "current", "news", "latest"] = true →
      (fallback_classification q).intent = "web_search" ∧
      (fallback_classification q).confidence = 3/5) ∧
    (∀ q, containsAny (pyToLower q)
        ["code", "program", "function", "script", "debug"] = false →
      containsAny (pyToLower q)
        ["search", "find", "what is", "current", "news", "latest"] = false →
      containsAny (pyToLower q)
        ["image", "picture", "draw", "create visual", "generate image"] = true →
      (fallback_classification q).intent = "image_generation" ∧
      (fallback_classification q).confidence = 4/5) ∧
    (∀ q, containsAny (pyToLower q)
        ["code", "program", "function", "script", "debug"] = false →
      containsAny (pyToLower q)
        ["search", "find", "what is", "current", "news", "latest"] = false →
      containsAny (pyToLower q)
        ["image", "picture", "draw", "create visual", "generate image"] = false →
      containsAny (pyToLower q)
        ["calculate", "math", "compute", "solve", "equation"] = true →
      (fallback_classification q).intent = "calculation" ∧
      (fallback_classification q).confidence = 7/10) ∧
    (∀ q, containsAny (pyToLower q)
        ["code", "program", "function", "script", "debug"] = false →
      containsAny (pyToLower q)
        ["search", "find", "what is", "current", "news", "latest"] = false →
      containsAny (pyToLower q)
        ["image", "picture", "draw", "create visual", "generate image"] = false →
      containsAny (pyToLower q)
        ["calculate", "math", "compute", "solve", "equation"] = false →
      (fallback_classification q).intent = "text_generation" ∧
      (fallback_classification q).confidence = 1/2) ∧
    ((classify_intent none "Hello").intent = "text_generation" ∧
      (classify_intent none "Hello").confidence = 1/2 ∧
      (classify_intent none "Hello").suggested_tools = ["text_generation"]) ∧
    ((classify_intent none "debug this python function").intent =
        "code_generation" ∧
      (classify_intent none "debug this python function").confidence = 7/10) := by
  refine ⟨fun q => rfl, ?_, ?_, ?_, ?_, ?_, ?_, ⟨by decide, rfl, by decide⟩,
    ⟨by decide, rfl⟩⟩
  · intro q
    simp only [fallback_classification]
    split_ifs <;> rfl
  · intro q h1
    simp [fallback_classification, h1]
  · intro q h1 h2
    simp [fallback_classification, h1, h2]
  · intro q h1 h2 h3
    simp [fallback_classification, h1, h2, h3]
  · intro q h1 h2 h3 h4
    simp [fallback_classification, h1, h2, h3, h4]
  · intro q h1 h2 h3 h4
    simp [fallback_classification, h1, h2, h3, h4]

/-- Witness for C8: the code-keyword branch applied at the concrete
message "debug this python function". -/
theorem fallback_keyword_priority_witness :
    (fallback_classification "debug this python function").intent =
      "code_generation" ∧
    (fallback_classification "debug this python function").confidence = 7/10 :=
  fallback_keyword_priority.2.2.1 "debug this python function" (by decide)

/-! ## C2 — the classifier rule invariant -/

/-- Counterexample to C2 as stated: on the external backend path,
`classify_intent` substitutes defaults only for *missing* fields, so a
backend answer that carries `"suggested_tools": []` (a present, empty
list) produces a classification with no suggested tools at all,
violating the claimed invariant for the backend path. -/
theorem classify_backend_empty_tools_counterexample :
    (classify_intent
      (some (fun _ => .ok
        { suggested_tools := some [], parameters := some [] }))
      "hi").suggested_tools = [] := rfl

/-- Claim C2 (amended): every classification produced by the keyword
fallback path — no backend configured, or the backend raising — has a
non-empty `suggested_tools` list and a `parameters` entry for every
suggested tool; the backend-success path does not enforce this
invariant. -/
theorem classification_wf_fallback (q : String) :
    ClassificationWF (fallback_classification q) ∧
    ClassificationWF (classify_intent none q) ∧
    ∀ (backend : ClassifierBackend) (e : PyExn), backend q = .error e →
      ClassificationWF (classify_intent (some backend) q) := by
  have hfb : ClassificationWF (fallback_classification q) := by
    simp only [ClassificationWF, fallback_classification]
    split_ifs <;>
      exact ⟨by simp, by intro t ht; simp at ht; simp [ht, dlookup]⟩
  refine ⟨hfb, hfb, fun backend e he => ?_⟩
  simp only [classify_intent, he]
  exact hfb

/-- Witness for C2 (amended) at the message "Hello" and a backend that
always raises. -/
theorem classification_wf_fallback_witness :
    ClassificationWF (classify_intent
      (some (fun _ => .error { msg := "boom", type_name := "RuntimeError" }))
      "Hello") :=
  (classification_wf_fallback "Hello").2.2
    (fun _ => .error { msg := "boom", type_name := "RuntimeError" })
    { msg := "boom", type_name := "RuntimeError" } rfl

/-! ## C10 — a completed result with empty generated text -/

/-- Claim C10: if a batch's only tool result has status `completed`,
tool name `text_generation`, and a non-empty result payload whose
`generated_text` field is the empty string, `_format_response` returns
an empty content list: no text block, no error block, and no fallback
block (a completed result is present). -/
theorem format_empty_generated_text (c : IntentClassification) (q : String)
    (payload : PyDict) (et : Option ℚ) (hne : payload ≠ [])
    (hget : dlookup payload "generated_text" = some (.str "")) :
    format_response c
      [{ tool_name := "text_generation", status := .completed,
         result := some payload, error := none, execution_time := et }] q
      = [] := by
  have hemp : payload.isEmpty = false := by
    cases payload with
    | nil => exact absurd rfl hne
    | cons p tl => rfl
  simp [format_response, successful_block, resultTruthy, hemp, pyGet, hget,
    PyVal.truthy]

/-- Witness for C10 at the concrete payload
`{"generated_text": ""}`. -/
theorem format_empty_generated_text_witness :
    format_response
      { intent := "text_generation", confidence := 1/2,
        suggested_tools := ["text_generation"], parameters := [] }
      [{ tool_name := "text_generation", status := .completed,
         result := some [("generated_text", .str "")], error := none,
         execution_time := none }] "hi" = [] :=
  format_empty_generated_text
    { intent := "text_generation", confidence := 1/2,
      suggested_tools := ["text_generation"], parameters := [] }
    "hi" [("generated_text", .str "")] none (List.cons_ne_nil _ _) rfl

/-! ## C1 — `execute_multiple_tools` length and order -/

/-- Counterexample to C1 as stated: a request without a (truthy)
`tool_name` produces no task, so the returned list is shorter than the
input — here a one-element batch returns an empty list. -/
theorem execute_many_skips_nameless_counterexample :
    execute_multiple_tools
      (fun _ _ => .ok { tool_name := "text_generation", status := .completed })
      [{ tool_name := none, parameters := [] }] = [] ∧
    [({ tool_name := none, parameters := [] } : ToolRequest)].length = 1 :=
  ⟨rfl, rfl⟩

theorem execute_many_zip
    (exec_one : String → PyDict → Except PyExn ToolResult)
    (reqs : List ToolRequest)
    (h : ∀ r ∈ reqs, ∃ n, r.tool_name = some n ∧ n ≠ "") :
    List.zipWith
      (fun result request =>
        match result with
        | Except.error e =>
          ({ tool_name := request.tool_name.getD "unknown"
             status := ToolStatus.failed
             error := some ("Tool execution exception: " ++ e.msg) } : ToolResult)
        | Except.ok r => r)
      (reqs.filterMap (fun r =>
        (truthyName r.tool_name).map (fun n => exec_one n r.parameters)))
      reqs
    = reqs.map (fun r =>
        match exec_one (r.tool_name.getD "unknown") r.parameters with
        | Except.ok res => res
        | Except.error e =>
          ({ tool_name := r.tool_name.getD "unknown"
             status := ToolStatus.failed
             error := some ("Tool execution exception: " ++ e.msg) } : ToolResult)) := by
  induction reqs with
  | nil => rfl
  | cons r tl ih =>
    obtain ⟨n, hn, hne⟩ := h r (List.mem_cons_self r tl)
    have hr : (truthyName r.tool_name).map (fun m => exec_one m r.parameters)
        = some (exec_one n r.parameters) := by
      rw [hn]
      simp [truthyName, hne]
    simp only [List.filterMap_cons, hr, List.zipWith_cons_cons, List.map_cons]
    congr 1
    · rw [hn]
      cases he : exec_one n r.parameters <;> simp [he]
    · exact ih (fun x hx => h x (List.mem_cons_of_mem _ hx))

/-- Claim C1 (amended): for every list of tool requests *each of which
carries a non-empty tool name*, `execute_multiple_tools` returns a list
of the same length whose i-th element is the result for the i-th
request (the per-request execution outcome, a raising execution being
converted to a `failed` result named after that request), regardless of
which individual executions fail. Requests without a truthy tool name
are skipped, shrinking and misaligning the output (see the
counterexample). -/
theorem execute_many_alignment
    (exec_one : String → PyDict → Except PyExn ToolResult)
    (reqs : List ToolRequest)
    (h : ∀ r ∈ reqs, ∃ n, r.tool_name = some n ∧ n ≠ "") :
    execute_multiple_tools exec_one reqs
      = reqs.map (fun r =>
        match exec_one (r.tool_name.getD "unknown") r.parameters with
        | Except.ok res => res
        | Except.error e =>
          ({ tool_name := r.tool_name.getD "unknown"
             status := ToolStatus.failed
             error := some ("Tool execution exception: " ++ e.msg) } : ToolResult)) ∧
    (execute_multiple_tools exec_one reqs).length = reqs.length := by
  have hmap : execute_multiple_tools exec_one reqs
      = reqs.map (fun r =>
        match exec_one (r.tool_name.getD "unknown") r.parameters with
        | Except.ok res => res
        | Except.error e =>
          ({ tool_name := r.tool_name.getD "unknown"
             status := ToolStatus.failed
             error := some ("Tool execution exception: " ++ e.msg) } : ToolResult)) := by
    cases reqs with
    | nil => rfl
    | cons r tl =>
      obtain ⟨n, hn, hne⟩ := h r (List.mem_cons_self r tl)
      have hr : (truthyName r.tool_name).map (fun m => exec_one m r.parameters)
          = some (exec_one n r.parameters) := by
        rw [hn]
        simp [truthyName, hne]
      have hzip := execute_many_zip exec_one (r :: tl) h
      simp only [List.filterMap_cons, hr] at hzip
      simp only [execute_multiple_tools, List.filterMap_cons, hr,
        List.isEmpty_cons, Bool.false_eq_true, if_false]
      exact hzip
  exact ⟨hmap, by rw [hmap, List.length_map]⟩

/-- Witness for C1 (amended) at a one-request batch whose execution
raises. -/
theorem execute_many_alignment_witness :
    (execute_multiple_tools
      (fun _ _ => .error { msg := "boom", type_name := "RuntimeError" })
      [{ tool_name := some "text_generation", parameters := [] }]).length
    = [({ tool_name := some "text_generation", parameters := [] } :
        ToolRequest)].length :=
  (execute_many_alignment
    (fun _ _ => .error { msg := "boom", type_name := "RuntimeError" })
    [{ tool_name := some "text_generation", parameters := [] }]
    (by
      intro r hr
      simp only [List.mem_singleton] at hr
      subst hr
      exact ⟨"text_generation", rfl, by decide⟩)).2

/-! ## C9 — re-registration under a different category -/

theorem register_lookup_other_category (s : RegistryState) (t : BaseTool)
    (c : String) (hc : c ≠ t.category) :
    dlookup ((register_tool s t).1).tool_categories c
      = dlookup s.tool_categories c := by
  unfold register_tool
  dsimp only
  split_ifs <;> simp [dlookup_dinsert_ne _ _ _ _ hc]

/-- Claim C9: registering a tool whose name equals an already-registered
tool's name but whose category differs leaves the old category's index
entry containing that name, so `get_tools_by_category` for the old
category returns the newly registered (enabled) tool and
`get_categories` continues to list the old category. -/
theorem reregister_keeps_old_category (s : RegistryState) (t₁ t₂ : BaseTool)
    (_hlook : dlookup s.tools t₂.name = some t₁)
    (hcat : t₁.category ≠ t₂.category)
    (hold : dlookup s.tool_categories t₁.category = some [t₂.name])
    (hen : t₂.enabled = true) :
    dlookup ((register_tool s t₂).1).tool_categories t₁.category
      = some [t₂.name] ∧
    get_tools_by_category (register_tool s t₂).1 t₁.category = [t₂] ∧
    t₁.category ∈ get_categories (register_tool s t₂).1 := by
  have hA : dlookup ((register_tool s t₂).1).tool_categories t₁.category
      = some [t₂.name] := by
    rw [register_lookup_other_category s t₂ t₁.category hcat, hold]
  refine ⟨hA, ?_, mem_keys_of_dlookup _ _ _ hA⟩
  unfold get_tools_by_category
  rw [hA]
  have htools : dlookup ((register_tool s t₂).1).tools t₂.name = some t₂ :=
    dlookup_dinsert_self s.tools t₂.name t₂
  simp [htools, hen]

/-- Witness for C9: the registry holds `"t"` in category `"a"`; a new
enabled tool named `"t"` with category `"b"` is registered. -/
theorem reregister_keeps_old_category_witness :
    dlookup ((register_tool
        ⟨[("t", ⟨"t", "", "a", true, none, fun _ => true,
            fun _ => .ok { tool_name := "t", status := .completed }⟩)],
         [("a", ["t"])]⟩
        ⟨"t", "", "b", true, none, fun _ => true,
          fun _ => .ok { tool_name := "t", status := .completed }⟩).1).tool_categories
      "a" = some ["t"] ∧
    get_tools_by_category (register_tool
        ⟨[("t", ⟨"t", "", "a", true, none, fun _ => true,
            fun _ => .ok { tool_name := "t", status := .completed }⟩)],
         [("a", ["t"])]⟩
        ⟨"t", "", "b", true, none, fun _ => true,
          fun _ => .ok { tool_name := "t", status := .completed }⟩).1
      "a" = [⟨"t", "", "b", true, none, fun _ => true,
          fun _ => .ok { tool_name := "t", status := .completed }⟩] ∧
    "a" ∈ get_categories (register_tool
        ⟨[("t", ⟨"t", "", "a", true, none, fun _ => true,
            fun _ => .ok { tool_name := "t", status := .completed }⟩)],
         [("a", ["t"])]⟩
        ⟨"t", "", "b", true, none, fun _ => true,
          fun _ => .ok { tool_name := "t", status := .completed }⟩).1 :=
  reregister_keeps_old_category
    ⟨[("t", ⟨"t", "", "a", true, none, fun _ => true,
        fun _ => .ok { tool_name := "t", status := .completed }⟩)],
     [("a", ["t"])]⟩
    ⟨"t", "", "a", true, none, fun _ => true,
      fun _ => .ok { tool_name := "t", status := .completed }⟩
    ⟨"t", "", "b", true, none, fun _ => true,
      fun _ => .ok { tool_name := "t", status := .completed }⟩
    rfl (by decide) rfl rfl

/-! ## C6 — response formatting order and fallback condition -/

theorem successful_block_shape (r : ToolResult) (b : MessageContent)
    (h : successful_block r = some b) :
    isFallbackBlock b = false ∧ (b.type == ContentType.error) = false := by
  simp only [successful_block] at h
  split_ifs at h
  all_goals
    first
      | exact Option.noConfusion h
      | (injection h with hb; subst hb;
         exact ⟨by simp [isFallbackBlock, dlookup], rfl⟩)

theorem filterMap_successful_no_fallback (l : List ToolResult) :
    (l.filterMap successful_block).filter (fun b => isFallbackBlock b) = [] := by
  induction l with
  | nil => rfl
  | cons r tl ih =>
    cases hb : successful_block r with
    | none => simp [List.filterMap_cons, hb, ih]
    | some b =>
      have hs := (successful_block_shape r b hb).1
      simp [List.filterMap_cons, hb, List.filter_cons, hs, ih]

theorem filterMap_successful_no_error (l : List ToolResult) :
    (l.filterMap successful_block).filter
      (fun b => b.type == ContentType.error) = [] := by
  induction l with
  | nil => rfl
  | cons r tl ih =>
    cases hb : successful_block r with
    | none => simp [List.filterMap_cons, hb, ih]
    | some b =>
      have hs := (successful_block_shape r b hb).2
      simp [List.filterMap_cons, hb, List.filter_cons, hs, ih]

theorem isFallbackBlock_merged (l : List ToolResult) :
    isFallbackBlock (merged_error_block l) = false := by
  simp [isFallbackBlock, merged_error_block, dlookup]

theorem isFallbackBlock_fallback (c : IntentClassification) (q : String) :
    isFallbackBlock (generate_fallback_response c q) = true := by
  simp [isFallbackBlock, generate_fallback_response, dlookup]

/-- Claim C6: `_format_response` orders completed-result blocks (in
result order) before the single merged error block (present exactly
when there are failed results), which precedes the fallback block;
exactly one fallback block — produced by
`_generate_fallback_response`, which keys on the classified intent with
a generic default interpolating the original query — is appended when
there are zero completed results (it is then the last block), and no
fallback block is appended when at least one result completed; the
spec's mixed scenario (completed text generation "Hi there" plus a
failed image generation) yields exactly the text block then the error
block. -/
theorem format_response_ordering (c : IntentClassification)
    (rs : List ToolResult) (q : String) :
    (format_response c rs q
      = (rs.filter (fun r => r.status == ToolStatus.completed)).filterMap
          successful_block
        ++ (if (rs.filter (fun r => r.status == ToolStatus.failed)).isEmpty
            then []
            else [merged_error_block
              (rs.filter (fun r => r.status == ToolStatus.failed))])
        ++ (if (rs.filter (fun r => r.status == ToolStatus.completed)).isEmpty
            then [generate_fallback_response c q]
            else [])) ∧
    ((rs.filter (fun r => r.status == ToolStatus.completed)).isEmpty = true →
      (format_response c rs q).getLast?
        = some (generate_fallback_response c q) ∧
      ((format_response c rs q).filter
        (fun b => isFallbackBlock b)).length = 1) ∧
    ((rs.filter (fun r => r.status == ToolStatus.completed)).isEmpty = false →
      ((format_response c rs q).filter
        (fun b => isFallbackBlock b)).length = 0) ∧
    (((format_response c rs q).filter
        (fun b => b.type == ContentType.error)).length
      = if (rs.filter (fun r => r.status == ToolStatus.failed)).isEmpty
        then 0 else 1) ∧
    (∃ pre post,
      (generate_fallback_response c q).content = .str (pre ++ q ++ post)) ∧
    (format_response
      { intent := "text_generation", confidence := 1/2,
        suggested_tools := ["text_generation"], parameters := [] }
      [{ tool_name := "text_generation", status := .completed,
         result := some [("generated_text", .str "Hi there")] },
       { tool_name := "image_generation", status := .failed,
         error := some "boom" }] "hi"
      = [{ type := .text, content := .str "Hi there",
           metadata := some [("tool_used", .str "text_generation"),
             ("model", .null), ("tokens", .null),
             ("execution_time", .null)] },
         { type := .error,
           content := .str
             ("Some tools encountered errors:\nTool \x27image_generation\x27 failed: boom"),
           metadata := some [("failed_tools",
             .list [.str "image_generation"])] }]) := by
  have hmain : format_response c rs q
      = (rs.filter (fun r => r.status == ToolStatus.completed)).filterMap
          successful_block
        ++ (if (rs.filter (fun r => r.status == ToolStatus.failed)).isEmpty
            then []
            else [merged_error_block
              (rs.filter (fun r => r.status == ToolStatus.failed))])
        ++ (if (rs.filter (fun r => r.status == ToolStatus.completed)).isEmpty
            then [generate_fallback_response c q]
            else []) := by
    simp only [format_response]
    cases hrs : rs.filter (fun r => r.status == ToolStatus.failed) <;>
      cases hcs : rs.filter (fun r => r.status == ToolStatus.completed) <;>
        simp [List.append_assoc]
  refine ⟨hmain, ?_, ?_, ?_, ?_, by rfl⟩
  · intro hce
    have hc : rs.filter (fun r => r.status == ToolStatus.completed) = [] :=
      List.isEmpty_iff.mp hce
    rw [hmain, hc]
    cases hrs : rs.filter (fun r => r.status == ToolStatus.failed) <;>
      simp [List.getLast?, isFallbackBlock_merged, isFallbackBlock_fallback]
  · intro hce
    rw [hmain]
    cases hrs : rs.filter (fun r => r.status == ToolStatus.failed) <;>
      simp [hce, List.filter_append, filterMap_successful_no_fallback,
        isFallbackBlock_merged]
  · rw [hmain]
    cases hrs : rs.filter (fun r => r.status == ToolStatus.failed) <;>
      cases hcs : rs.filter (fun r => r.status == ToolStatus.completed) <;>
        simp [List.filter_append, filterMap_successful_no_error,
          generate_fallback_response, merged_error_block]
  · simp only [generate_fallback_response]
    split_ifs <;> exact ⟨_, _, rfl⟩

/-- Witness for C6: an all-failed batch puts the intent-keyed fallback
block last, and exactly one fallback block appears. -/
theorem format_response_ordering_witness :
    (format_response
      { intent := "web_search", confidence := 3/5,
        suggested_tools := ["text_generation"], parameters := [] }
      [{ tool_name := "image_generation", status := .failed,
         error := some "boom" }] "hi").getLast?
      = some (generate_fallback_response
          { intent := "web_search", confidence := 3/5,
            suggested_tools := ["text_generation"], parameters := [] } "hi") ∧
    ((format_response
      { intent := "web_search", confidence := 3/5,
        suggested_tools := ["text_generation"], parameters := [] }
      [{ tool_name := "image_generation", status := .failed,
         error := some "boom" }] "hi").filter
        (fun b => isFallbackBlock b)).length = 1 :=
  (format_response_ordering
    { intent := "web_search", confidence := 3/5,
      suggested_tools := ["text_generation"], parameters := [] }
    [{ tool_name := "image_generation", status := .failed,
       error := some "boom" }] "hi").2.1 rfl

/-! ## C3 — raising progress callbacks -/

/-- Counterexample to C3 as stated: with a progress callback that
raises when invoked, `process_query` does *not* return the normal
delivered response — the exception propagates to the orchestrator
boundary and the returned response is the error response. -/
theorem raising_callback_counterexample :
    (process_query
      ⟨fun _ _ => .ok (fallback_classification "hi"), fun _ => .ok []⟩
      ⟨[], []⟩ ⟨"hi", none, none, none⟩
      (some (fun _ _ => .error { msg := "boom", type_name := "RuntimeError" }))
      (fun _ => 0) (fun _ => "u")).2.response_type = MessageType.error := rfl

/-- Claim C3 (amended): a raising progress callback is *not* isolated.
`process_query` catches it at the orchestrator boundary and returns the
errored response (no exception escapes the pipeline, the state with the
user message appended is kept, no rollback), rather than the normal
delivered response; and `_safe_execute` with a callback that raises on
every invocation does not return the underlying tool's result: the
start-report's exception is caught, but the failure-report inside the
`except` branch raises again and the exception escapes `_safe_execute`. -/
theorem raising_callback_behaviour :
    (∀ deps st query clock uuid e,
      process_query deps st query
        (some (fun _ _ => Except.error e)) clock uuid
      = (state_after_append st query clock uuid,
         error_response e (uuid 1) (resolve_session_id query uuid)
           (clock 5 - clock 0))) ∧
    (∀ (t : BaseTool) (clock : Nat → ℚ) (p : PyDict) (e : PyExn),
      t.progress_callback = some (fun _ _ => Except.error e) →
      t.validate_parameters p = true →
      safe_execute t clock p = .error e) := by
  constructor
  · intro deps st query clock uuid e
    rfl
  · intro t clock p e hcb hv
    simp [safe_execute, report_progress, hcb, hv, Bind.bind, Except.bind]

/-- Witness for C3 (amended): a concrete tool whose attached callback
always raises; `_safe_execute` propagates the exception. -/
theorem raising_callback_behaviour_witness :
    safe_execute
      ⟨"t", "", "general", true,
        some (fun _ _ =>
          Except.error { msg := "boom", type_name := "RuntimeError" }),
        fun _ => true,
        fun _ => .ok { tool_name := "t", status := .completed }⟩
      (fun _ => 0) []
      = .error { msg := "boom", type_name := "RuntimeError" } :=
  raising_callback_behaviour.2
    ⟨"t", "", "general", true,
      some (fun _ _ =>
        Except.error { msg := "boom", type_name := "RuntimeError" }),
      fun _ => true,
      fun _ => .ok { tool_name := "t", status := .completed }⟩
    (fun _ => 0) [] { msg := "boom", type_name := "RuntimeError" } rfl rfl

/-! ## C4 — the orchestrator's error boundary -/

theorem state_after_append_history (st : OrchestratorState) (query : UserQuery)
    (clock : Nat → ℚ) (uuid : Nat → String) :
    ∃ msgs,
      dlookup (state_after_append st query clock uuid).conversation_history
        (resolve_session_id query uuid) = some msgs ∧
      user_chat_message query (resolve_session_id query uuid) clock uuid
        ∈ msgs := by
  refine ⟨_, dlookup_dinsert_self _ _ _, ?_⟩
  exact List.mem_append_right _ (List.mem_singleton.mpr rfl)

theorem history_append_keeps (h : List (String × List ChatMessage))
    (sid : String) (m m' : ChatMessage)
    (hm : ∃ msgs, dlookup h sid = some msgs ∧ m ∈ msgs) :
    ∃ msgs, dlookup (history_append h sid m') sid = some msgs ∧ m ∈ msgs := by
  obtain ⟨msgs, hl, hmem⟩ := hm
  refine ⟨_, dlookup_dinsert_self _ _ _, ?_⟩
  rw [hl]
  exact List.mem_append_left _ hmem

theorem process_query_body_error_history (deps : OrchestratorDeps)
    (st : OrchestratorState) (query : UserQuery)
    (cb : Option ProgressCallback) (clock : Nat → ℚ) (uuid : Nat → String)
    (e : PyExn) (stE : OrchestratorState)
    (h : process_query_body deps st query cb clock uuid = .error (e, stE)) :
    ∃ msgs,
      dlookup stE.conversation_history (resolve_session_id query uuid)
        = some msgs ∧
      user_chat_message query (resolve_session_id query uuid) clock uuid
        ∈ msgs := by
  have hst3 := state_after_append_history st query clock uuid
  have hst4 : ∀ am : ChatMessage, ∃ msgs,
      dlookup (history_append
          (state_after_append st query clock uuid).conversation_history
          (resolve_session_id query uuid) am)
        (resolve_session_id query uuid) = some msgs ∧
      user_chat_message query (resolve_session_id query uuid) clock uuid
        ∈ msgs :=
    fun am => history_append_keeps _ _ _ am hst3
  simp only [process_query_body, bind, Except.bind, pure, Except.pure,
    raiseWith, Except.mapError] at h
  cases h1 : callCB cb "Analyzing your request..." (1/10) with
  | error e1 =>
    rw [h1] at h
    injection h with h'
    injection h' with he hstE
    subst hstE
    exact hst3
  | ok u1 =>
    rw [h1] at h
    dsimp only at h
    cases h2 : deps.classify_with_history query.message
        (get_conversation_context (state_after_append st query clock uuid)
          (resolve_session_id query uuid)) with
    | error e2 =>
      rw [h2] at h
      injection h with h'
      injection h' with he hstE
      subst hstE
      exact hst3
    | ok c2 =>
      rw [h2] at h
      dsimp only at h
      cases h3 : callCB cb ("Intent classified: " ++ c2.intent) (3/10) with
      | error e3 =>
        rw [h3] at h
        injection h with h'
        injection h' with he hstE
        subst hstE
        exact hst3
      | ok u3 =>
        rw [h3] at h
        dsimp only at h
        split at h
        · cases h4 : callCB cb "Executing tools..." (1/2) with
          | error e4 =>
            rw [h4] at h
            injection h with h'
            injection h' with he hstE
            subst hstE
            exact hst3
          | ok u4 =>
            rw [h4] at h
            dsimp only at h
            split at h
            · cases h5 : deps.execute_multiple_tools
                  (List.filterMap (fun tn =>
                    Option.map
                      (fun ps =>
                        ({ tool_name := some tn, parameters := ps } :
                          ToolRequest))
                      (dlookup c2.parameters tn))
                    c2.suggested_tools) with
              | error e5 =>
                rw [h5] at h
                injection h with h'
                injection h' with he hstE
                subst hstE
                exact hst3
              | ok rs5 =>
                rw [h5] at h
                dsimp only at h
                cases h6 : callCB cb "Processing results..." (4/5) with
                | error e6 =>
                  rw [h6] at h
                  injection h with h'
                  injection h' with he hstE
                  subst hstE
                  exact hst3
                | ok u6 =>
                  rw [h6] at h
                  dsimp only at h
                  cases h7 : callCB cb "Response ready!" 1 with
                  | error e7 =>
                    rw [h7] at h
                    injection h with h'
                    injection h' with he hstE
                    subst hstE
                    exact hst4 _
                  | ok u7 =>
                    rw [h7] at h
                    dsimp only at h
                    exact Except.noConfusion h
            · cases h6 : callCB cb "Processing results..." (4/5) with
              | error e6 =>
                rw [h6] at h
                injection h with h'
                injection h' with he hstE
                subst hstE
                exact hst3
              | ok u6 =>
                rw [h6] at h
                dsimp only at h
                cases h7 : callCB cb "Response ready!" 1 with
                | error e7 =>
                  rw [h7] at h
                  injection h with h'
                  injection h' with he hstE
                  subst hstE
                  exact hst4 _
                | ok u7 =>
                  rw [h7] at h
                  dsimp only at h
                  exact Except.noConfusion h
        · cases h7 : callCB cb "Response ready!" 1 with
          | error e7 =>
            rw [h7] at h
            injection h with h'
            injection h' with he hstE
            subst hstE
            exact hst4 _
          | ok u7 =>
            rw [h7] at h
            dsimp only at h
            exact Except.noConfusion h

/-- Claim C4: if an uncaught exception escapes the `try` body during
`process_query`, the returned response carries exactly one error
content block containing the exception's message and its type name,
the user message already appended to the session's history remains
there (no rollback), and the elapsed time up to the failure point is
still reported. -/
theorem pipeline_error_single_block (deps : OrchestratorDeps)
    (st : OrchestratorState) (query : UserQuery)
    (cb : Option ProgressCallback) (clock : Nat → ℚ) (uuid : Nat → String)
    (e : PyExn) (stE : OrchestratorState)
    (h : process_query_body deps st query cb clock uuid = .error (e, stE)) :
    process_query deps st query cb clock uuid
      = (stE, error_response e (uuid 1) (resolve_session_id query uuid)
          (clock 5 - clock 0)) ∧
    (process_query deps st query cb clock uuid).2.content
      = [{ type := .error,
           content := .str
             ("I encountered an error processing your request: " ++ e.msg),
           metadata := some [("error_type", .str e.type_name)] }] ∧
    (process_query deps st query cb clock uuid).2.response_type
      = MessageType.error ∧
    (process_query deps st query cb clock uuid).2.processing_time
      = some (clock 5 - clock 0) ∧
    ∃ msgs,
      dlookup (process_query deps st query cb clock uuid).1.conversation_history
        (resolve_session_id query uuid) = some msgs ∧
      user_chat_message query (resolve_session_id query uuid) clock uuid
        ∈ msgs := by
  have hp : process_query deps st query cb clock uuid
      = (stE, error_response e (uuid 1) (resolve_session_id query uuid)
          (clock 5 - clock 0)) := by
    unfold process_query
    rw [h]
  refine ⟨hp, ?_, ?_, ?_, ?_⟩ <;> rw [hp]
  · rfl
  · rfl
  · rfl
  · exact process_query_body_error_history deps st query cb clock uuid e stE h

/-- Witness for C4: a classifier backend call that raises `ValueError`
aborts a fresh-session query into the single error response. -/
theorem pipeline_error_single_block_witness :
    (process_query
      ⟨fun _ _ => .error { msg := "boom", type_name := "ValueError" },
        fun _ => .ok []⟩
      ⟨[], []⟩ ⟨"hi", none, none, none⟩ none (fun _ => 0)
      (fun _ => "u")).2.response_type = MessageType.error :=
  (pipeline_error_single_block
    ⟨fun _ _ => .error { msg := "boom", type_name := "ValueError" },
      fun _ => .ok []⟩
    ⟨[], []⟩ ⟨"hi", none, none, none⟩ none (fun _ => 0) (fun _ => "u")
    { msg := "boom", type_name := "ValueError" }
    (state_after_append ⟨[], []⟩ ⟨"hi", none, none, none⟩ (fun _ => 0)
      (fun _ => "u"))
    rfl).2.2.1

/-! ## C7 — registry index consistency -/

theorem register_tools_eq (s : RegistryState) (t : BaseTool) :
    ((register_tool s t).1).tools = dinsert s.tools t.name t := rfl

theorem register_cats_lookup_self (s : RegistryState) (t : BaseTool) :
    dlookup ((register_tool s t).1).tool_categories t.category
      = some (if t.name ∈ (dlookup s.tool_categories t.category).getD []
              then (dlookup s.tool_categories t.category).getD []
              else (dlookup s.tool_categories t.category).getD []
                ++ [t.name]) := by
  unfold register_tool
  dsimp only
  cases hx : dlookup s.tool_categories t.category with
  | none =>
    simp only [hx, Option.isNone_none, if_true, dlookup_dinsert_self,
      Option.getD_some, Option.getD_none, List.not_mem_nil, if_false,
      List.nil_append]
  | some x =>
    simp only [hx, Option.isNone_some, Bool.false_eq_true, if_false,
      Option.getD_some]
    by_cases hmem : t.name ∈ x
    · simp only [hmem, if_true]
      exact hx
    · simp only [hmem, if_false]
      exact dlookup_dinsert_self _ _ _

theorem register_preserves_inv (s : RegistryState) (t : BaseTool)
    (hs : RegInv s)
    (hstable : ∀ t₀, dlookup s.tools t.name = some t₀ →
      t₀.category = t.category) :
    RegInv (register_tool s t).1 := by
  intro c names hc
  rw [register_tools_eq]
  by_cases hcat : c = t.category
  · subst hcat
    rw [register_cats_lookup_self] at hc
    injection hc with hn
    subst hn
    cases hs0 : dlookup s.tool_categories t.category with
    | none =>
      simp only [Option.getD_none, List.not_mem_nil, if_false,
        List.nil_append]
      refine ⟨List.nodup_singleton _, fun m hm => ?_⟩
      rw [List.mem_singleton] at hm
      subst hm
      exact ⟨t, dlookup_dinsert_self _ _ _, rfl⟩
    | some x =>
      obtain ⟨hnodup, hmem⟩ := hs t.category x hs0
      have hentry : ∀ m ∈ x, ∃ t', dlookup (dinsert s.tools t.name t) m
          = some t' ∧ t'.category = t.category := by
        intro m hm
        obtain ⟨t₀, ht₀, hcm⟩ := hmem m hm
        by_cases hmn : m = t.name
        · subst hmn
          exact ⟨t, dlookup_dinsert_self _ _ _, rfl⟩
        · refine ⟨t₀, ?_, hcm⟩
          rw [dlookup_dinsert_ne _ _ _ _ hmn]
          exact ht₀
      simp only [Option.getD_some]
      by_cases hx : t.name ∈ x
      · simp only [hx, if_true]
        exact ⟨hnodup, hentry⟩
      · simp only [hx, if_false]
        refine ⟨?_, fun m hm => ?_⟩
        · rw [List.nodup_append]
          exact ⟨hnodup, List.nodup_singleton _,
            fun m hm hm' => hx ((List.mem_singleton.mp hm') ▸ hm)⟩
        · rw [List.mem_append] at hm
          cases hm with
          | inl hm => exact hentry m hm
          | inr hm =>
            rw [List.mem_singleton] at hm
            subst hm
            exact ⟨t, dlookup_dinsert_self _ _ _, rfl⟩
  · rw [register_lookup_other_category s t c hcat] at hc
    obtain ⟨hnodup, hmem⟩ := hs c names hc
    refine ⟨hnodup, fun m hm => ?_⟩
    obtain ⟨t₀, ht₀, hcm⟩ := hmem m hm
    by_cases hmn : m = t.name
    · subst hmn
      exact absurd ((hstable t₀ ht₀ ▸ hcm : (t.category = c)).symm) hcat
    · refine ⟨t₀, ?_, hcm⟩
      rw [dlookup_dinsert_ne _ _ _ _ hmn]
      exact ht₀

theorem unregister_generic_entry (s : RegistryState) (n : String)
    (t : BaseTool) (hfound : dlookup s.tools n = some t) (hs : RegInv s)
    (c : String) (names : List String) (hcc : c ≠ t.category)
    (hc : dlookup s.tool_categories c = some names) :
    names.Nodup ∧ ∀ m ∈ names, ∃ t',
      dlookup (derase s.tools n) m = some t' ∧ t'.category = c := by
  obtain ⟨hnodup, hmem⟩ := hs c names hc
  refine ⟨hnodup, fun m hm => ?_⟩
  obtain ⟨t₀, ht₀, hcm⟩ := hmem m hm
  by_cases hmn : m = n
  · subst hmn
    rw [ht₀] at hfound
    injection hfound with hte
    rw [hte] at hcm
    exact absurd hcm.symm hcc
  · refine ⟨t₀, ?_, hcm⟩
    rw [dlookup_derase_ne _ _ _ hmn]
    exact ht₀

theorem unregister_state_eq (s : RegistryState) (n : String) (t : BaseTool)
    (hfound : dlookup s.tools n = some t) :
    (unregister_tool s n).1
      = { tools := derase s.tools n
          tool_categories :=
            match dlookup s.tool_categories t.category with
            | none => s.tool_categories
            | some names =>
              if (names.erase n).isEmpty
              then derase s.tool_categories t.category
              else dinsert s.tool_categories t.category (names.erase n) } := by
  unfold unregister_tool
  rw [hfound]

theorem unregister_preserves_inv (s : RegistryState) (n : String)
    (hs : RegInv s) : RegInv (unregister_tool s n).1 := by
  cases hfound : dlookup s.tools n with
  | none =>
    have hid : (unregister_tool s n).1 = s := by
      unfold unregister_tool
      rw [hfound]
    rw [hid]
    exact hs
  | some t =>
    intro c names hc
    rw [unregister_state_eq s n t hfound] at hc ⊢
    dsimp only at hc ⊢
    cases hcat0 : dlookup s.tool_categories t.category with
    | none =>
      rw [hcat0] at hc
      dsimp only at hc
      by_cases hcc : c = t.category
      · subst hcc
        rw [hc] at hcat0
        exact Option.noConfusion hcat0
      · exact unregister_generic_entry s n t hfound hs c names hcc hc
    | some names₀ =>
      rw [hcat0] at hc
      dsimp only at hc
      by_cases hemp : (names₀.erase n).isEmpty
      · rw [if_pos hemp] at hc
        by_cases hcc : c = t.category
        · subst hcc
          rw [dlookup_derase_self] at hc
          exact Option.noConfusion hc
        · rw [dlookup_derase_ne _ _ _ hcc] at hc
          exact unregister_generic_entry s n t hfound hs c names hcc hc
      · rw [if_neg hemp] at hc
        by_cases hcc : c = t.category
        · subst hcc
          rw [dlookup_dinsert_self] at hc
          injection hc with hn
          subst hn
          obtain ⟨hnodup₀, hmem₀⟩ := hs t.category names₀ hcat0
          refine ⟨hnodup₀.erase _, fun m hm => ?_⟩
          rw [hnodup₀.mem_erase_iff] at hm
          obtain ⟨hmn, hm₀⟩ := hm
          obtain ⟨t₀, ht₀, hcm⟩ := hmem₀ m hm₀
          refine ⟨t₀, ?_, hcm⟩
          rw [dlookup_derase_ne _ _ _ hmn]
          exact ht₀
        · rw [dlookup_dinsert_ne _ _ _ _ hcc] at hc
          exact unregister_generic_entry s n t hfound hs c names hcc hc

theorem reg_inv_empty : RegInv ⟨[], []⟩ := by
  intro c names hc
  exact Option.noConfusion hc

theorem reg_inv_no_dangling (s : RegistryState) (hs : RegInv s) :
    NoDangling s := by
  intro c names hc m hm
  obtain ⟨t', ht', _⟩ := (hs c names hc).2 m hm
  rw [ht']
  rfl

theorem reg_inv_apply_ops (ops : List RegOp) :
    ∀ s, RegInv s → OkSeq s ops → RegInv (apply_ops s ops) := by
  induction ops with
  | nil => exact fun s hs _ => hs
  | cons op l ih =>
    intro s hs hseq
    refine ih (apply_op s op) ?_ hseq.2
    cases op with
    | reg t => exact register_preserves_inv s t hs hseq.1
    | unreg n => exact unregister_preserves_inv s n hs

theorem keyCount_dinsert (d : List (String × BaseTool)) (k : String)
    (v : BaseTool) (h : keyCount d k ≤ 1) :
    keyCount (dinsert d k v) k = 1 := by
  induction d with
  | nil => simp [keyCount, dinsert]
  | cons p tl ih =>
    by_cases hp : p.1 = k
    · have h0 : keyCount tl k = 0 := by
        have h2 := h
        simp only [keyCount, List.filter_cons, beq_iff_eq, hp, if_true,
          List.length_cons] at h2
        simp only [keyCount]
        omega
      have hf : tl.filter (fun p => p.1 == k) = [] := by
        simpa [keyCount, List.length_eq_zero] using h0
      simp [dinsert, keyCount, hp, List.filter_cons, hf]
    · have h' : keyCount tl k ≤ 1 := by
        have := h
        simp only [keyCount, List.filter_cons] at this ⊢
        by_cases hb : (p.1 == k) = true
        · exact absurd (by simpa using hb) hp
        · simpa [hb] using this
      simp only [dinsert, hp, if_false]
      simp only [keyCount, List.filter_cons] at ih ⊢
      by_cases hb : (p.1 == k) = true
      · exact absurd (by simpa using hb) hp
      · simpa [hb] using ih h'

theorem unregister_last_removes_category (s : RegistryState) (n : String)
    (t : BaseTool) (names : List String)
    (hfound : dlookup s.tools n = some t)
    (hcat0 : dlookup s.tool_categories t.category = some names)
    (hlast : (names.erase n).isEmpty = true) :
    dlookup ((unregister_tool s n).1).tool_categories t.category = none ∧
    t.category ∉ get_categories (unregister_tool s n).1 := by
  have hnone : dlookup ((unregister_tool s n).1).tool_categories t.category
      = none := by
    rw [unregister_state_eq s n t hfound]
    dsimp only
    rw [hcat0]
    dsimp only
    rw [if_pos hlast]
    exact dlookup_derase_self _ _
  exact ⟨hnone, dlookup_eq_none_of_not_mem_keys _ _ hnone⟩

/-- Counterexample to C7 as stated: register `"t"` under category
`"a"`, re-register `"t"` under category `"b"`, then unregister `"t"`.
Unregistration cleans only the tool's *current* category, so the
category index still lists `"t"` under `"a"` while the primary index no
longer contains `"t"` — a dangling reference. -/
theorem registry_dangling_counterexample :
    dlookup (apply_ops ⟨[], []⟩
      [RegOp.reg ⟨"t", "", "a", true, none, fun _ => true,
         fun _ => .ok { tool_name := "t", status := .completed }⟩,
       RegOp.reg ⟨"t", "", "b", true, none, fun _ => true,
         fun _ => .ok { tool_name := "t", status := .completed }⟩,
       RegOp.unreg "t"]).tool_categories "a" = some ["t"] ∧
    dlookup (apply_ops ⟨[], []⟩
      [RegOp.reg ⟨"t", "", "a", true, none, fun _ => true,
         fun _ => .ok { tool_name := "t", status := .completed }⟩,
       RegOp.reg ⟨"t", "", "b", true, none, fun _ => true,
         fun _ => .ok { tool_name := "t", status := .completed }⟩,
       RegOp.unreg "t"]).tools "t" = none :=
  ⟨rfl, rfl⟩

/-- Claim C7 (amended): for every sequence of register/unregister
operations from the empty registry *in which no registration changes
the category of an already-registered name*, the category index never
references a tool name absent from the primary index; registering a
tool under an already-registered name leaves exactly one entry under
that name, the new tool (last write wins); and unregistering the last
tool of a category removes that category from the category listing.
(Without the category-stability restriction the first part fails: see
the counterexample.) -/
theorem registry_indices_consistent :
    (∀ ops, OkSeq ⟨[], []⟩ ops →
      NoDangling (apply_ops ⟨[], []⟩ ops)) ∧
    (∀ (s : RegistryState) (t : BaseTool), keyCount s.tools t.name ≤ 1 →
      keyCount ((register_tool s t).1).tools t.name = 1 ∧
      dlookup ((register_tool s t).1).tools t.name = some t) ∧
    (∀ (s : RegistryState) (n : String) (t : BaseTool)
        (names : List String),
      dlookup s.tools n = some t →
      dlookup s.tool_categories t.category = some names →
      (names.erase n).isEmpty = true →
      dlookup ((unregister_tool s n).1).tool_categories t.category = none ∧
      t.category ∉ get_categories (unregister_tool s n).1) := by
  refine ⟨?_, ?_, ?_⟩
  · intro ops hseq
    exact reg_inv_no_dangling _
      (reg_inv_apply_ops ops ⟨[], []⟩ reg_inv_empty hseq)
  · intro s t h
    constructor
    · rw [register_tools_eq]
      exact keyCount_dinsert _ _ _ h
    · rw [register_tools_eq]
      exact dlookup_dinsert_self _ _ _
  · intro s n t names hfound hcat0 hlast
    exact unregister_last_removes_category s n t names hfound hcat0 hlast

/-- Witness for C7 (amended): unregistering the only tool of category
`"a"` removes the category from the listing. -/
theorem registry_indices_consistent_witness :
    dlookup ((unregister_tool
        ⟨[("t", ⟨"t", "", "a", true, none, fun _ => true,
            fun _ => .ok { tool_name := "t", status := .completed }⟩)],
         [("a", ["t"])]⟩ "t").1).tool_categories "a" = none ∧
    "a" ∉ get_categories (unregister_tool
        ⟨[("t", ⟨"t", "", "a", true, none, fun _ => true,
            fun _ => .ok { tool_name := "t", status := .completed }⟩)],
         [("a", ["t"])]⟩ "t").1 :=
  registry_indices_consistent.2.2
    ⟨[("t", ⟨"t", "", "a", true, none, fun _ => true,
        fun _ => .ok { tool_name := "t", status := .completed }⟩)],
     [("a", ["t"])]⟩ "t"
    ⟨"t", "", "a", true, none, fun _ => true,
      fun _ => .ok { tool_name := "t", status := .completed }⟩
    ["t"] rfl rfl rfl

end AgenticChat
